import Mathlib

/-!
Shallow embedding of `VITyarthiproject.py` (a desktop BMI / health-advice
calculator) and verification of its specification.

Modelling conventions:
* Python floats are modelled as rationals `ℚ`; `float('inf')` (which occurs
  only as the upper bound of the `Obesity` interval) is modelled by the
  dedicated constructor `PyFloat.inf`.
* Because Mathlib marks `Rat.add`, `Rat.sub`, `Rat.mul`, `Rat.inv` and
  `Rat.ofScientific` irreducible, the embedding computes with the reducible
  kernel operations `mkRat` / `Rat.divInt` through the wrappers `qadd`,
  `qsub`, `qmul`, `qdiv`; the lemmas `qadd_eq` … `qdiv_eq` identify them
  with the field operations of `ℚ`, so theorems can be stated in ordinary
  arithmetic while witnesses still evaluate by `decide`.
* Python's `round(x, 2)` rounds half-to-even; `roundHalfEven` models this
  exactly on rationals.
* Python dicts whose values are only read are modelled as association lists
  in the source's insertion order.
* Operations that can raise (the `SLEEP_RECOMMENDATIONS[age_group]`
  subscript, the division in `calculate_bmi`) additionally get an
  `Except`-valued embedding, used to show the error branches are
  unreachable.
* The tkinter handler `calculate_health` is modelled as a pure function from
  the previous display contents and the parsed form fields (a failed
  `int(...)` / `float(...)` parse is `none`) to the new display contents
  plus an alert flag.
-/

namespace HealthCalc

/-- Addition of rationals by the reducible `mkRat` (definitionally equal to
`a + b`, see `qadd_eq`). -/
def qadd (a b : ℚ) : ℚ := mkRat (a.num * b.den + b.num * a.den) (a.den * b.den)

/-- Subtraction of rationals by the reducible `mkRat` (equal to `a - b`,
see `qsub_eq`). -/
def qsub (a b : ℚ) : ℚ := mkRat (a.num * b.den - b.num * a.den) (a.den * b.den)

/-- Multiplication of rationals by the reducible `mkRat` (equal to `a * b`,
see `qmul_eq`). -/
def qmul (a b : ℚ) : ℚ := mkRat (a.num * b.num) (a.den * b.den)

/-- Division of rationals by the reducible `Rat.divInt` (equal to `a / b`,
see `qdiv_eq`). -/
def qdiv (a b : ℚ) : ℚ := Rat.divInt (a.num * b.den) (a.den * b.num)

/-- A Python int seen as a float (used for `float - int` mixed arithmetic
and int-valued table entries). -/
def intQ (z : ℤ) : ℚ := mkRat z 1

/-- A Python float that may be infinite (only `float('inf')` occurs in the
source, as the upper bound of the last BMI interval). -/
inductive PyFloat where
  | val (q : ℚ)
  | inf
deriving DecidableEq

/-- `b < u` for an upper bound `u` that may be `float('inf')`. -/
def PyFloat.ltq (b : ℚ) : PyFloat → Bool
  | .val m => decide (b < m)
  | .inf => true

/-- Floor of a rational, computed by floor division of numerator by
denominator. -/
def ratFloor (q : ℚ) : ℤ := Int.fdiv q.num q.den

/-- Python's banker's rounding (`round` ties to even) to an integer. -/
def roundHalfEven (q : ℚ) : ℤ :=
  let f : ℤ := ratFloor q
  let r : ℚ := qsub q (intQ f)
  if r < mkRat 1 2 then f
  else if mkRat 1 2 < r then f + 1
  else if f % 2 = 0 then f else f + 1

/-- Python's `round(x, 2)` on the rational model. -/
def round2 (q : ℚ) : ℚ := Rat.divInt (roundHalfEven (qmul q 100)) 100

/-- `BMI_CATEGORIES` (source lines 8-13): insertion-ordered table of
half-open intervals `[min, max)`.  `mkRat 37 2` is the literal `18.5`. -/
def BMI_CATEGORIES : List (String × ℚ × PyFloat) :=
  [("Underweight", 0, PyFloat.val (mkRat 37 2)),
   ("Normal weight", mkRat 37 2, PyFloat.val 25),
   ("Overweight", 25, PyFloat.val 30),
   ("Obesity", 30, PyFloat.inf)]

/-- `SLEEP_RECOMMENDATIONS` (source lines 17-20): age-group label to
`(min_hours, max_hours)`, both Python ints. -/
def SLEEP_RECOMMENDATIONS : List (String × ℤ × ℤ) :=
  [("18-64", (7, 9)), ("65+", (7, 8))]

/-- Python dict read `d[k]` / `d.get(k)` on an association list:
first binding of the key, if any. -/
def dictLookup {α : Type} (l : List (String × α)) (k : String) : Option α :=
  (l.find? (fun p => p.1 == k)).map (fun p => p.2)

/-- `calculate_bmi` (source lines 24-35).  `height_m ** 2` is
`qmul height_m height_m`.  The `try/except (TypeError, ValueError)` has no
counterpart: on rational inputs neither exception can arise, and
`calculate_bmiE` below shows the guarded division cannot raise either. -/
def calculate_bmi (weight_kg height_m : ℚ) : ℚ :=
  if height_m ≤ 0 then 0
  else round2 (qdiv weight_kg (qmul height_m height_m))

/-- `calculate_bmi` with the division modelled fallibly: dividing by zero
would raise `ZeroDivisionError` (which the source's `except` clause does not
catch). -/
def calculate_bmiE (weight_kg height_m : ℚ) : Except String ℚ :=
  if height_m ≤ 0 then Except.ok 0
  else if qmul height_m height_m = 0 then Except.error "ZeroDivisionError"
  else Except.ok (round2 (qdiv weight_kg (qmul height_m height_m)))

/-- The loop condition `min_val <= bmi < max_val` of `get_bmi_category`. -/
def intervalHas (bmi : ℚ) (c : String × ℚ × PyFloat) : Bool :=
  decide (c.2.1 ≤ bmi) && PyFloat.ltq bmi c.2.2

/-- The `for` loop of `get_bmi_category`: first matching entry wins,
otherwise the defensive fallback. -/
def findCat (bmi : ℚ) : List (String × ℚ × PyFloat) → String × ℚ × PyFloat
  | [] => ("Unknown", 0, PyFloat.val 0)
  | c :: rest => if intervalHas bmi c then c else findCat bmi rest

/-- `get_bmi_category` (source lines 37-44). -/
def get_bmi_category (bmi : ℚ) : String × ℚ × PyFloat :=
  findCat bmi BMI_CATEGORIES

/-- The `'Unknown'` explanation text (source line 55), also the default of
the `.get` lookup in `get_bmi_explanation`. -/
def unknownMeaning : String := "Could not determine a standard BMI meaning."

/-- The `explanations` dict of `get_bmi_explanation` (source lines 50-56). -/
def explanations : List (String × String) :=
  [("Underweight", "This range suggests you may not be consuming enough nutrients or calories. Consult a professional for healthy weight gain strategies."),
   ("Normal weight", "Your weight is considered healthy relative to your height, indicating a lower risk of common obesity-related diseases."),
   ("Overweight", "This range indicates carrying excess weight. A focus on diet and increased activity is recommended to reduce health risks."),
   ("Obesity", "This range is associated with a significantly increased risk for serious health conditions. Professional consultation for a weight management plan is strongly advised."),
   ("Unknown", unknownMeaning)]

/-- `get_bmi_explanation` (source lines 46-57): `.get` with the `'Unknown'`
entry as default. -/
def get_bmi_explanation (category : String) : String :=
  (dictLookup explanations category).getD unknownMeaning

/-! String rendering helpers for the f-strings of the source. -/

/-- Does the character list start with the given pattern? -/
def listStartsWith : List Char → List Char → Bool
  | _, [] => true
  | [], _ :: _ => false
  | c :: cs, p :: ps => c == p && listStartsWith cs ps

/-- Does the character list contain the pattern as a contiguous sublist? -/
def listContainsSub : List Char → List Char → Bool
  | [], pat => pat.isEmpty
  | c :: cs, pat => listStartsWith (c :: cs) pat || listContainsSub cs pat

/-- Substring test on strings (for the report-section claims). -/
def strContains (s pat : String) : Bool :=
  listContainsSub s.data pat.data

/-- `c * n` as a string, for the `"=" * 50` / `"-" * 50` report rulers. -/
def repeatChar (c : Char) (n : ℕ) : String :=
  String.mk (List.replicate n c)

/-- Decimal digits of the fractional part `q ∈ [0, 1)` (fuel-bounded; every
decimally-written input terminates well within the fuel). -/
def fracDigits : ℕ → ℚ → String
  | 0, _ => ""
  | fuel + 1, q =>
    if q = 0 then ""
    else
      let d : ℤ := ratFloor (qmul q 10)
      toString d ++ fracDigits fuel (qsub (qmul q 10) (intQ d))

/-- Python's `str` / `repr` of a float with a terminating decimal expansion:
`8.0` prints as `"8.0"`, `7.5` as `"7.5"`. -/
def pyFloatStr (q : ℚ) : String :=
  let sign := if q < 0 then "-" else ""
  let a := if q < 0 then -q else q
  let ip : ℤ := ratFloor a
  let ds := fracDigits 17 (qsub a (intQ ip))
  sign ++ toString ip ++ "." ++ (if ds = "" then "0" else ds)

/-- Python's fixed-point format `f"{q:.prec f}"` (round half-to-even, then
pad the fraction to `prec` digits). -/
def formatFixed (prec : ℕ) (q : ℚ) : String :=
  let m : ℤ := roundHalfEven (qmul q (intQ ((10 : ℤ) ^ prec)))
  let p : ℕ := 10 ^ prec
  let sign := if m < 0 then "-" else ""
  let n : ℕ := m.natAbs
  let fs := toString (n % p)
  let pad := repeatChar '0' (prec - fs.length)
  sign ++ toString (n / p) ++
    (if prec = 0 then "" else "." ++ pad ++ fs)

/-- `f"{x:.1f}"` where `x` may be `float('inf')` (Python prints `inf`). -/
def formatFixed1PF : PyFloat → String
  | .val q => formatFixed 1 q
  | .inf => "inf"

/-! `get_sleep_feedback` (source lines 62-87). -/

/-- The early-return message for `age < 18` (source line 69). -/
def minorsMsg : String :=
  "Note: Specific recommendations for minors/children are not included in this model."

/-- The below-range message (source lines 74-77). -/
def sleepBelowMsg (hours : ℚ) (min_h max_h : ℤ) (age_group : String) : String :=
  "You slept " ++ pyFloatStr hours ++
    (" hours, which is less than the recommended " ++ toString min_h ++ "-" ++
      toString max_h ++ " hours for your age group (" ++ age_group ++
      "). Recommendation: Try to prioritize an earlier bedtime and aim for a consistent sleep schedule to improve rest and focus.")

/-- The above-range message (source lines 78-82). -/
def sleepAboveMsg (hours : ℚ) (min_h max_h : ℤ) (age_group : String) : String :=
  "You slept " ++ pyFloatStr hours ++
    (" hours, which is slightly more than the recommended " ++ toString min_h ++ "-" ++
      toString max_h ++ " hours for your age group (" ++ age_group ++
      "). Recommendation: Excessive sleep can sometimes indicate underlying issues. If this is unusual, review your daily routine for consistent sleep quality.")

/-- The within-range message (source lines 83-87); it does not mention the
age group. -/
def sleepWithinMsg (hours : ℚ) (min_h max_h : ℤ) (_age_group : String) : String :=
  "Excellent! Your sleep of " ++ pyFloatStr hours ++
    (" hours falls perfectly within the recommended " ++ toString min_h ++ "-" ++
      toString max_h ++
      " hour range. Recommendation: Maintain this consistent sleep pattern for optimal health.")

/-- The three-way comparison of `hours` against the recommended range
(source lines 73-87). -/
def sleepBody (hours : ℚ) (min_h max_h : ℤ) (age_group : String) : String :=
  if hours < intQ min_h then sleepBelowMsg hours min_h max_h age_group
  else if intQ max_h < hours then sleepAboveMsg hours min_h max_h age_group
  else sleepWithinMsg hours min_h max_h age_group

/-- The `SLEEP_RECOMMENDATIONS[age_group]` subscript and what follows it;
a missing key would raise `KeyError`. -/
def sleepGroupBody (hours : ℚ) (age_group : String) : Except String String :=
  match dictLookup SLEEP_RECOMMENDATIONS age_group with
  | none => Except.error ("KeyError: " ++ age_group)
  | some (min_h, max_h) => Except.ok (sleepBody hours min_h max_h age_group)

/-- `get_sleep_feedback` with the dict subscript modelled fallibly
(source lines 62-87): the `age_group` selection, then the table read. -/
def get_sleep_feedbackE (age : ℤ) (hours : ℚ) : Except String String :=
  if 18 ≤ age ∧ age ≤ 64 then sleepGroupBody hours "18-64"
  else if 65 ≤ age then sleepGroupBody hours "65+"
  else Except.ok minorsMsg

/-- `get_sleep_feedback` (source lines 62-87) as the total function it is in
practice; `engine_never_raises` shows the error case cannot occur. -/
def get_sleep_feedback (age : ℤ) (hours : ℚ) : String :=
  match get_sleep_feedbackE age hours with
  | Except.ok s => s
  | Except.error e => e

/-- `get_activity_feedback` (source lines 89-106). -/
def get_activity_feedback (activity_level_str : String) : String :=
  if activity_level_str = "Sedentary" then
    "Sedentary Lifestyle Detected. Recommendation: Aim to break up long periods of sitting (e.g., stand up every hour). Start with 30 minutes of light activity (like walking) daily and gradually increase intensity to moderate."
  else if activity_level_str = "Moderate" then
    "Moderate Activity Level. Recommendation: You are meeting minimum guidelines! To maximize benefits, ensure you incorporate strength training (2-3 times per week) alongside your cardio for muscle and bone health."
  else if activity_level_str = "Active" then
    "Active Lifestyle! Recommendation: Excellent work. To prevent injury and fatigue, ensure proper recovery time, nutrition, and hydration. Consider mixing up your routines to engage different muscle groups."
  else "Activity Recommendation: Could not determine specific advice."

/-- `get_smoking_advice` (source lines 108-120). -/
def get_smoking_advice (smoking_status : String) : String :=
  if smoking_status = "Yes" then
    "Smoking Status: Tobacco use is extremely detrimental to cardiovascular and respiratory health. Health Priority: Seek support to quit smoking immediately. Resources like quit-lines or medical professionals can provide vital assistance."
  else if smoking_status = "No" then
    "Smoking Status: Non-smoker. Excellent! Recommendation: Maintain this status and avoid exposure to second-hand smoke to protect your long-term health."
  else "Smoking Status: Unknown. Please confirm your smoking status for relevant advice."

/-- The two tips every recommendation list starts with
(source lines 124-127). -/
def baseRecommendations : List String :=
  ["General Wellness Tip: Aim for 5 servings of fruits and vegetables daily and minimize processed foods.",
   "Hydration Tip: Drink at least 8 glasses (about 2 liters) of water per day."]

/-- `generate_health_recommendations` (source lines 122-146): the base tips
plus at most one category-specific tip. -/
def generate_health_recommendations (category : String) : List String :=
  baseRecommendations ++
    (if category = "Underweight" then
      ["Nutritional Focus: Consider nutrient-dense foods (healthy fats, lean proteins) and consult a professional about healthy ways to gain muscle and fat mass."]
    else if category = "Normal weight" then
      ["Maintenance Goal: Focus on consistency. Continue balancing a healthy diet with regular, varied exercise."]
    else if category = "Overweight" then
      ["Dietary Change: Prioritize whole foods and increase high-fiber, low-calorie options like vegetables. Focus on sustainable portion control."]
    else if category = "Obesity" then
      ["Health Priority: It is highly recommended to consult a healthcare provider for a personalized, safe, and effective plan. Focus on achievable, small, consistent changes."]
    else [])

/-! The tkinter handler `HealthCalculatorApp.calculate_health`
(source lines 225-295). -/

/-- The form fields after the `int(...)` / `float(...)` conversions of
source lines 232-235; a field whose text does not parse is `none`.  The two
combo boxes always hold one of their fixed choices but are modelled as
arbitrary strings. -/
structure FormInput where
  age : Option ℤ
  height_cm : Option ℚ
  weight_kg : Option ℚ
  sleep_hours : Option ℚ
  activity : String
  smoking : String

/-- What one click of `Generate Recommendations` leaves behind: the contents
of the results text area and whether `messagebox.showerror` fired. -/
structure HandlerOutcome where
  display : String
  alert : Bool
deriving DecidableEq

/-- The failure condition of source lines 230-240: a parsed set of values
that fails the positivity check of line 239, or any failed conversion
(which raises `ValueError` before the positivity check runs). -/
def invalidForm (inp : FormInput) : Prop :=
  match inp.age, inp.height_cm, inp.weight_kg, inp.sleep_hours with
  | some a, some h, some w, some s => a ≤ 0 ∨ h ≤ 0 ∨ w ≤ 0 ∨ s < 0
  | _, _, _, _ => True

/-- The report string assembled in source lines 246-292 from validated
inputs. -/
def buildReport (age : ℤ) (height_cm weight_kg sleep_hours : ℚ)
    (activity smoking : String) : String :=
  let height_m := qdiv height_cm 100
  let bmi := calculate_bmi weight_kg height_m
  let c := get_bmi_category bmi
  let category := c.1
  let min_val := c.2.1
  let max_val := c.2.2
  let bmi_meaning := get_bmi_explanation category
  let eq50 := repeatChar '=' 50
  let dash50 := repeatChar '-' 50
  eq50 ++ "\n" ++
    "          COMPREHENSIVE HEALTH METRICS REPORT\n" ++
    eq50 ++ "\n" ++
    "Age: " ++ toString age ++ " years\n" ++
    "Height: " ++ formatFixed 1 height_cm ++ " cm | Weight: " ++
      formatFixed 1 weight_kg ++ " kg\n" ++
    dash50 ++ "\n" ++
    "Calculated BMI: " ++ formatFixed 2 bmi ++ "\n" ++
    "BMI Category: " ++ category ++ "\n" ++
    "(Ideal BMI Range: " ++ formatFixed 1 min_val ++ " to " ++
      formatFixed1PF max_val ++ ")\n" ++
    "\n[ BMI Overall Meaning ]\n" ++
    "-> " ++ bmi_meaning ++ "\n" ++
    eq50 ++ "\n" ++
    "\n[ Sleep Recommendation ]\n" ++
    "-> " ++ get_sleep_feedback age sleep_hours ++ "\n" ++
    "\n[ Activity Recommendation ]\n" ++
    "-> " ++ get_activity_feedback activity ++ "\n" ++
    "\n[ Smoking Status Advice ]\n" ++
    "-> " ++ get_smoking_advice smoking ++ "\n" ++
    "\n[ General Health & Diet Suggestions ]\n" ++
    String.join ((generate_health_recommendations category).map
      (fun s => "-> " ++ s ++ "\n"))

/-- `calculate_health` (source lines 225-295).  Line 228 deletes the
previous contents of the results text area before anything else, so
`prevDisplay` never survives; the error return of line 244 leaves the area
empty, the success path of line 295 inserts the fresh report. -/
def calculate_health (_prevDisplay : String) (inp : FormInput) :
    HandlerOutcome :=
  match inp.age, inp.height_cm, inp.weight_kg, inp.sleep_hours with
  | some age, some height_cm, some weight_kg, some sleep_hours =>
    if age ≤ 0 ∨ height_cm ≤ 0 ∨ weight_kg ≤ 0 ∨ sleep_hours < 0 then
      { display := "", alert := true }
    else
      { display :=
          buildReport age height_cm weight_kg sleep_hours
            inp.activity inp.smoking,
        alert := false }
  | _, _, _, _ => { display := "", alert := true }

/-- The worked end-to-end input of the specification: age 25, 170 cm, 70 kg,
8 hours of sleep, `Moderate`, `No`. -/
def demoInput : FormInput :=
  { age := some 25, height_cm := some 170, weight_kg := some 70,
    sleep_hours := some 8, activity := "Moderate", smoking := "No" }

/-- The five section labels of the report. -/
def sectionLabels : List String :=
  ["[ BMI Overall Meaning ]", "[ Sleep Recommendation ]",
   "[ Activity Recommendation ]", "[ Smoking Status Advice ]",
   "[ General Health & Diet Suggestions ]"]

/-- The parse failure used by the C3 counterexample: a non-numeric age
field. -/
def badParseInput : FormInput :=
  { age := none, height_cm := some 170, weight_kg := some 70,
    sleep_hours := some 8, activity := "Moderate", smoking := "No" }

/-- A validation failure: `age = 0` violates the positivity check. -/
def nonPositiveAgeInput : FormInput :=
  { age := some 0, height_cm := some 170, weight_kg := some 70,
    sleep_hours := some 8, activity := "Moderate", smoking := "No" }

/-! Bridges between the reducible arithmetic and the field structure of
`ℚ`. -/

theorem qadd_eq (a b : ℚ) : qadd a b = a + b := (Rat.add_def' a b).symm

theorem qsub_eq (a b : ℚ) : qsub a b = a - b := (Rat.sub_def' a b).symm

theorem qmul_eq (a b : ℚ) : qmul a b = a * b := by
  rw [qmul, Rat.mul_def, Rat.normalize_eq_mkRat]

theorem qdiv_eq (a b : ℚ) : qdiv a b = a / b := by
  rw [qdiv, ← Rat.div_def']

theorem intQ_eq (z : ℤ) : intQ z = (z : ℚ) := by
  rw [intQ, Rat.mkRat_eq_divInt, Rat.divInt_eq_div]
  norm_num

theorem round2_eq (q : ℚ) : round2 q = (roundHalfEven (q * 100) : ℚ) / 100 := by
  rw [round2, qmul_eq, Rat.divInt_eq_div]
  norm_num

/-! Shared helper lemmas. -/

theorem str_ext {s t : String} (h : s.data = t.data) : s = t := by
  cases s; cases t; simp_all

theorem str_append_left_cancel {p a b : String} (h : p ++ a = p ++ b) :
    a = b := by
  apply str_ext
  have hd : p.data ++ a.data = p.data ++ b.data := by
    rw [← String.data_append, ← String.data_append, h]
  exact List.append_cancel_left hd

theorem str_ne_of_head_ne {a b : String} {c c' : Char}
    (ha : a.data.head? = some c) (hb : b.data.head? = some c') (h : c ≠ c') :
    a ≠ b := by
  intro e
  rw [e, hb] at ha
  exact h (Option.some.inj ha).symm

theorem head_of_append {l₁ l₂ : List Char} {c : Char}
    (h : l₁.head? = some c) : (l₁ ++ l₂).head? = some c := by
  cases l₁ <;> simp_all

/-- The first table interval, `[0, 18.5)`. -/
theorem get_cat_underweight (bmi : ℚ) (h0 : 0 ≤ bmi) (h1 : bmi < mkRat 37 2) :
    get_bmi_category bmi = ("Underweight", 0, PyFloat.val (mkRat 37 2)) := by
  simp [get_bmi_category, BMI_CATEGORIES, findCat, intervalHas, PyFloat.ltq,
    h0, h1]

/-- The second table interval, `[18.5, 25)`. -/
theorem get_cat_normal (bmi : ℚ) (h1 : mkRat 37 2 ≤ bmi) (h2 : bmi < 25) :
    get_bmi_category bmi = ("Normal weight", mkRat 37 2, PyFloat.val 25) := by
  have h0 : (0 : ℚ) ≤ bmi := le_trans (by decide) h1
  simp [get_bmi_category, BMI_CATEGORIES, findCat, intervalHas, PyFloat.ltq,
    h0, h1, h2, not_lt.2 h1]

/-- The third table interval, `[25, 30)`. -/
theorem get_cat_overweight (bmi : ℚ) (h2 : 25 ≤ bmi) (h3 : bmi < 30) :
    get_bmi_category bmi = ("Overweight", 25, PyFloat.val 30) := by
  have h1 : mkRat 37 2 ≤ bmi := le_trans (by decide) h2
  simp [get_bmi_category, BMI_CATEGORIES, findCat, intervalHas, PyFloat.ltq,
    h2, h3, not_lt.2 h1, not_lt.2 h2]

/-- The last table interval, `[30, ∞)`. -/
theorem get_cat_obesity (bmi : ℚ) (h3 : 30 ≤ bmi) :
    get_bmi_category bmi = ("Obesity", 30, PyFloat.inf) := by
  have h2 : (25 : ℚ) ≤ bmi := le_trans (by decide) h3
  have h1 : mkRat 37 2 ≤ bmi := le_trans (by decide) h3
  simp [get_bmi_category, BMI_CATEGORIES, findCat, intervalHas, PyFloat.ltq,
    h3, not_lt.2 h1, not_lt.2 h2, not_lt.2 h3]

/-- The classification loop either returns a table entry or falls through to
the defensive `("Unknown", 0.0, 0.0)`. -/
theorem findCat_cases (bmi : ℚ) :
    ∀ l : List (String × ℚ × PyFloat),
      findCat bmi l ∈ l ∨ findCat bmi l = ("Unknown", 0, PyFloat.val 0)
  | [] => Or.inr rfl
  | c :: rest => by
    rw [findCat]
    split_ifs with h
    · exact Or.inl (List.mem_cons_self c rest)
    · rcases findCat_cases bmi rest with hm | he
      · exact Or.inl (List.mem_cons_of_mem c hm)
      · exact Or.inr he

/-! The claims. -/

/-- Claim C1: the BMI category table partitions `[0, ∞)` into half-open
intervals with no gaps or overlaps: for every `bmi ≥ 0` exactly one table
interval contains `bmi`, `get_bmi_category` returns a table entry, and the
interval it returns contains `bmi`. -/
theorem bmi_category_partition (bmi : ℚ) (h0 : 0 ≤ bmi) :
    BMI_CATEGORIES.countP (fun c => intervalHas bmi c) = 1 ∧
    get_bmi_category bmi ∈ BMI_CATEGORIES ∧
    intervalHas bmi (get_bmi_category bmi) = true := by
  rcases lt_or_le bmi (mkRat 37 2) with h1 | h1
  · rw [get_cat_underweight bmi h0 h1]
    refine ⟨?_, by decide, ?_⟩
    · simp [BMI_CATEGORIES, List.countP_cons, intervalHas, PyFloat.ltq,
        h0, h1, not_le.2 h1,
        not_le.2 (lt_trans h1 (by decide : (mkRat 37 2 : ℚ) < 25)),
        not_le.2 (lt_trans h1 (by decide : (mkRat 37 2 : ℚ) < 30))]
    · simp [intervalHas, PyFloat.ltq, h0, h1]
  rcases lt_or_le bmi 25 with h2 | h2
  · rw [get_cat_normal bmi h1 h2]
    refine ⟨?_, by decide, ?_⟩
    · simp [BMI_CATEGORIES, List.countP_cons, intervalHas, PyFloat.ltq,
        h1, h2, not_lt.2 h1, not_le.2 h2,
        not_le.2 (lt_trans h2 (by decide : (25 : ℚ) < 30))]
    · simp [intervalHas, PyFloat.ltq, h1, h2]
  rcases lt_or_le bmi 30 with h3 | h3
  · rw [get_cat_overweight bmi h2 h3]
    refine ⟨?_, by decide, ?_⟩
    · simp [BMI_CATEGORIES, List.countP_cons, intervalHas, PyFloat.ltq,
        h2, h3, not_lt.2 (le_trans (by decide : (mkRat 37 2 : ℚ) ≤ 25) h2),
        not_lt.2 h2, not_le.2 h3]
    · simp [intervalHas, PyFloat.ltq, h2, h3]
  · rw [get_cat_obesity bmi h3]
    refine ⟨?_, by decide, ?_⟩
    · simp [BMI_CATEGORIES, List.countP_cons, intervalHas, PyFloat.ltq,
        h3, not_lt.2 (le_trans (by decide : (mkRat 37 2 : ℚ) ≤ 30) h3),
        not_lt.2 (le_trans (by decide : (25:ℚ) ≤ 30) h3), not_lt.2 h3]
    · simp [intervalHas, PyFloat.ltq, h3]

/-- Witness for C1 at `bmi = 20`. -/
theorem bmi_category_partition_witness :
    (0 : ℚ) ≤ 20 ∧
    (BMI_CATEGORIES.countP (fun c => intervalHas 20 c) = 1 ∧
     get_bmi_category 20 ∈ BMI_CATEGORIES ∧
     intervalHas 20 (get_bmi_category 20) = true) :=
  ⟨by decide, bmi_category_partition 20 (by decide)⟩

/-- Claim C2: for positive weight and height, `calculate_bmi` is exactly
`weight / height²` rounded (half-to-even, as Python's `round`) to two
decimal places. -/
theorem calculate_bmi_spec (weight_kg height_m : ℚ)
    (_hw : 0 < weight_kg) (hh : 0 < height_m) :
    calculate_bmi weight_kg height_m = round2 (weight_kg / height_m ^ 2) := by
  rw [calculate_bmi, if_neg (not_le.2 hh)]
  congr 1
  rw [qdiv_eq, qmul_eq, pow_two]

/-- Witness for C2 at `weight = 70 kg`, `height = 1.7 m`. -/
theorem calculate_bmi_spec_witness :
    (0 : ℚ) < 70 ∧ (0 : ℚ) < mkRat 17 10 ∧
    calculate_bmi 70 (mkRat 17 10) = round2 (70 / (mkRat 17 10) ^ 2) :=
  ⟨by decide, by decide,
    calculate_bmi_spec 70 (mkRat 17 10) (by decide) (by decide)⟩

/-- Claim C4: for any weight, `calculate_bmi` returns `0.0` whenever
`height ≤ 0`, instead of raising a divide-by-zero error. -/
theorem calculate_bmi_nonpositive_height (weight_kg height_m : ℚ)
    (hh : height_m ≤ 0) : calculate_bmi weight_kg height_m = 0 := by
  rw [calculate_bmi, if_pos hh]

/-- Witness for C4 at `height = 0` (and `calculate_bmiE` confirms no
exception arises there). -/
theorem calculate_bmi_nonpositive_height_witness :
    (0 : ℚ) ≤ 0 ∧ calculate_bmi 55 0 = 0 :=
  ⟨by decide, calculate_bmi_nonpositive_height 55 0 (by decide)⟩

/-- Claim C5: each boundary value is classified into the interval where it
is the inclusive lower endpoint (`mkRat 37 2` is the literal `18.5`). -/
theorem bmi_boundaries :
    (mkRat 37 2 : ℚ) = 18.5 ∧
    (get_bmi_category (mkRat 37 2)).1 = "Normal weight" ∧
    (get_bmi_category 25).1 = "Overweight" ∧
    (get_bmi_category 30).1 = "Obesity" := by
  refine ⟨?_, by decide, by decide, by decide⟩
  rw [Rat.mkRat_eq_divInt, Rat.divInt_eq_div]
  norm_num

/-- Claim C9: a negative BMI (reachable through `calculate_bmi` with a
negative weight, since positivity is only checked in the GUI path) matches
no table interval, so `get_bmi_category` returns the defensive fallback
`("Unknown", 0.0, 0.0)`, whose interval does not contain the value, and
`get_bmi_explanation` maps `"Unknown"` to the default explanation. -/
theorem bmi_category_negative (bmi : ℚ) (h : bmi < 0) :
    get_bmi_category bmi = ("Unknown", 0, PyFloat.val 0) ∧
    intervalHas bmi ("Unknown", 0, PyFloat.val 0) = false ∧
    get_bmi_explanation "Unknown" = unknownMeaning := by
  have hn0 : ¬(0 : ℚ) ≤ bmi := not_le.2 h
  have hn1 : ¬mkRat 37 2 ≤ bmi :=
    not_le.2 (lt_trans h (by decide : (0 : ℚ) < mkRat 37 2))
  have hn2 : ¬(25 : ℚ) ≤ bmi :=
    not_le.2 (lt_trans h (by decide : (0 : ℚ) < 25))
  have hn3 : ¬(30 : ℚ) ≤ bmi :=
    not_le.2 (lt_trans h (by decide : (0 : ℚ) < 30))
  refine ⟨?_, ?_, rfl⟩
  · simp [get_bmi_category, BMI_CATEGORIES, findCat, intervalHas,
      PyFloat.ltq, hn0, hn1, hn2, hn3]
  · simp [intervalHas, PyFloat.ltq, hn0]

/-- Witness for C9 at `bmi = calculate_bmi (-50) 1 = -50`. -/
theorem bmi_category_negative_witness :
    calculate_bmi (-50) 1 < 0 ∧
    (get_bmi_category (calculate_bmi (-50) 1) = ("Unknown", 0, PyFloat.val 0) ∧
     intervalHas (calculate_bmi (-50) 1) ("Unknown", 0, PyFloat.val 0) = false ∧
     get_bmi_explanation "Unknown" = unknownMeaning) :=
  ⟨by decide, bmi_category_negative (calculate_bmi (-50) 1) (by decide)⟩

/-- The below-range message starts with `You slept …`, the within-range one
with `Excellent! …`, for any parameters. -/
theorem sleep_below_ne_within (hours hours' : ℚ) (mn mx mn' mx' : ℤ)
    (g g' : String) :
    sleepBelowMsg hours mn mx g ≠ sleepWithinMsg hours' mn' mx' g' := by
  apply str_ne_of_head_ne ?_ ?_ (show ('Y' : Char) ≠ 'E' by decide)
  · rw [sleepBelowMsg]
    simp only [String.data_append]
    exact head_of_append (head_of_append (by decide))
  · rw [sleepWithinMsg]
    simp only [String.data_append]
    exact head_of_append (head_of_append (by decide))

/-- The above-range message also starts with `You slept …`. -/
theorem sleep_above_ne_within (hours hours' : ℚ) (mn mx mn' mx' : ℤ)
    (g g' : String) :
    sleepAboveMsg hours mn mx g ≠ sleepWithinMsg hours' mn' mx' g' := by
  apply str_ne_of_head_ne ?_ ?_ (show ('Y' : Char) ≠ 'E' by decide)
  · rw [sleepAboveMsg]
    simp only [String.data_append]
    exact head_of_append (head_of_append (by decide))
  · rw [sleepWithinMsg]
    simp only [String.data_append]
    exact head_of_append (head_of_append (by decide))

/-- At the `18-64` table row the below- and above-range advice copy
differ. -/
theorem sleep_below_ne_above_adult (hours : ℚ) :
    sleepBelowMsg hours 7 9 "18-64" ≠ sleepAboveMsg hours 7 9 "18-64" := by
  intro e
  rw [sleepBelowMsg, sleepAboveMsg] at e
  exact absurd (str_append_left_cancel e) (by decide)

/-- At the `65+` table row the below- and above-range advice copy differ. -/
theorem sleep_below_ne_above_senior (hours : ℚ) :
    sleepBelowMsg hours 7 8 "65+" ≠ sleepAboveMsg hours 7 8 "65+" := by
  intro e
  rw [sleepBelowMsg, sleepAboveMsg] at e
  exact absurd (str_append_left_cancel e) (by decide)

/-- Claim C6: `get_sleep_feedback` returns the fixed minors message for
`age < 18`; ages 18-64 use the range `7-9` and ages 65+ the range `7-8`;
within an age group the result is one of three distinct messages chosen by
comparing `hours` with the range exactly as the source does; and the three
quoted examples evaluate as the spec says. -/
theorem sleep_feedback_spec :
    (∀ (age : ℤ) (hours : ℚ), age < 18 →
       get_sleep_feedback age hours = minorsMsg) ∧
    (∀ (age : ℤ) (hours : ℚ), 18 ≤ age → age ≤ 64 →
       get_sleep_feedback age hours = sleepBody hours 7 9 "18-64") ∧
    (∀ (age : ℤ) (hours : ℚ), 65 ≤ age →
       get_sleep_feedback age hours = sleepBody hours 7 8 "65+") ∧
    (∀ (hours : ℚ) (min_h max_h : ℤ) (g : String),
       (hours < (min_h : ℚ) →
          sleepBody hours min_h max_h g = sleepBelowMsg hours min_h max_h g) ∧
       (¬hours < (min_h : ℚ) → (max_h : ℚ) < hours →
          sleepBody hours min_h max_h g = sleepAboveMsg hours min_h max_h g) ∧
       (¬hours < (min_h : ℚ) → ¬(max_h : ℚ) < hours →
          sleepBody hours min_h max_h g = sleepWithinMsg hours min_h max_h g)) ∧
    (∀ hours : ℚ,
       (sleepBelowMsg hours 7 9 "18-64" ≠ sleepAboveMsg hours 7 9 "18-64" ∧
        sleepBelowMsg hours 7 9 "18-64" ≠ sleepWithinMsg hours 7 9 "18-64" ∧
        sleepAboveMsg hours 7 9 "18-64" ≠ sleepWithinMsg hours 7 9 "18-64") ∧
       (sleepBelowMsg hours 7 8 "65+" ≠ sleepAboveMsg hours 7 8 "65+" ∧
        sleepBelowMsg hours 7 8 "65+" ≠ sleepWithinMsg hours 7 8 "65+" ∧
        sleepAboveMsg hours 7 8 "65+" ≠ sleepWithinMsg hours 7 8 "65+")) ∧
    (get_sleep_feedback 30 8 = sleepWithinMsg 8 7 9 "18-64" ∧
     strContains (get_sleep_feedback 30 8) "7-9" = true ∧
     get_sleep_feedback 70 6 = sleepBelowMsg 6 7 8 "65+" ∧
     strContains (get_sleep_feedback 70 6) "7-8" = true ∧
     get_sleep_feedback 10 9 = minorsMsg) := by
  refine ⟨?_, ?_, ?_, ?_, ?_, rfl, by decide, rfl, by decide, rfl⟩
  · intro age hours h
    have h1 : ¬(18 ≤ age ∧ age ≤ 64) := by omega
    have h2 : ¬65 ≤ age := by omega
    unfold get_sleep_feedback get_sleep_feedbackE
    rw [if_neg h1, if_neg h2]
  · intro age hours h18 h64
    unfold get_sleep_feedback get_sleep_feedbackE
    rw [if_pos ⟨h18, h64⟩]
    rfl
  · intro age hours h65
    have h1 : ¬(18 ≤ age ∧ age ≤ 64) := by omega
    unfold get_sleep_feedback get_sleep_feedbackE
    rw [if_neg h1, if_pos h65]
    rfl
  · intro hours min_h max_h g
    refine ⟨fun hlo => ?_, fun hlo hhi => ?_, fun hlo hhi => ?_⟩
    · rw [sleepBody, if_pos (by rwa [intQ_eq])]
    · rw [sleepBody, if_neg (by rwa [intQ_eq]), if_pos (by rwa [intQ_eq])]
    · rw [sleepBody, if_neg (by rwa [intQ_eq]), if_neg (by rwa [intQ_eq])]
  · intro hours
    exact ⟨⟨sleep_below_ne_above_adult hours,
            sleep_below_ne_within hours hours 7 9 7 9 "18-64" "18-64",
            sleep_above_ne_within hours hours 7 9 7 9 "18-64" "18-64"⟩,
           ⟨sleep_below_ne_above_senior hours,
            sleep_below_ne_within hours hours 7 8 7 8 "65+" "65+",
            sleep_above_ne_within hours hours 7 8 7 8 "65+" "65+"⟩⟩

/-- Claim C7: the engine functions are total on numeric input.  The two
operations that could raise (the guarded division of `calculate_bmi`, the
`SLEEP_RECOMMENDATIONS[age_group]` subscript of `get_sleep_feedback`)
always take their `ok` branch, and the classification loop always returns
(a table entry or the defensive fallback); the remaining engine functions
(`get_bmi_explanation`, `get_activity_feedback`, `get_smoking_advice`,
`generate_health_recommendations`) are `.get`-with-default and `if/else`
lookups with no failing operation, total by construction. -/
theorem engine_never_raises :
    (∀ weight_kg height_m : ℚ,
       calculate_bmiE weight_kg height_m =
         Except.ok (calculate_bmi weight_kg height_m)) ∧
    (∀ (age : ℤ) (hours : ℚ),
       get_sleep_feedbackE age hours =
         Except.ok (get_sleep_feedback age hours)) ∧
    (∀ bmi : ℚ, get_bmi_category bmi ∈ BMI_CATEGORIES ∨
       get_bmi_category bmi = ("Unknown", 0, PyFloat.val 0)) := by
  refine ⟨?_, ?_, fun bmi => findCat_cases bmi BMI_CATEGORIES⟩
  · intro w h
    by_cases hh : h ≤ 0
    · rw [calculate_bmiE, calculate_bmi, if_pos hh, if_pos hh]
    · have hne : ¬qmul h h = 0 := by
        rw [qmul_eq]
        exact mul_ne_zero (ne_of_gt (not_le.1 hh)) (ne_of_gt (not_le.1 hh))
      rw [calculate_bmiE, calculate_bmi, if_neg hh, if_neg hh, if_neg hne]
  · intro age hours
    by_cases h1 : 18 ≤ age ∧ age ≤ 64
    · unfold get_sleep_feedback get_sleep_feedbackE
      rw [if_pos h1]
      rfl
    · by_cases h2 : 65 ≤ age
      · unfold get_sleep_feedback get_sleep_feedbackE
        rw [if_neg h1, if_pos h2]
        rfl
      · unfold get_sleep_feedback get_sleep_feedbackE
        rw [if_neg h1, if_neg h2]

/-- Claim C3 is false as stated: line 228 of the source clears the results
text area before validation, so on the error path the previously rendered
report is erased rather than left untouched.  Concretely, with a previous
report on display and a non-numeric age the display afterwards is empty. -/
theorem handler_clears_previous_report :
    (calculate_health "previous report" badParseInput).alert = true ∧
    ¬(calculate_health "previous report" badParseInput).display =
      "previous report" := by decide

/-- Claim C3 as amended: on any invalid submission (a numeric field that
fails to parse, non-positive age/height/weight, or negative sleep hours)
the handler reports a modal alert before any calculation, and the results
area — cleared at the start of the handler — is left empty, not unchanged. -/
theorem handler_error_path (prev : String) (inp : FormInput)
    (h : invalidForm inp) :
    (calculate_health prev inp).alert = true ∧
    (calculate_health prev inp).display = "" := by
  rcases inp with ⟨a, hc, w, s, act, sm⟩
  rcases a with _ | a <;> rcases hc with _ | hc <;> rcases w with _ | w <;>
    rcases s with _ | s <;> simp_all [calculate_health, invalidForm]

/-- Witness for the amended C3 at a concrete invalid input (`age = 0`). -/
theorem handler_error_path_witness :
    invalidForm nonPositiveAgeInput ∧
    ((calculate_health "x" nonPositiveAgeInput).alert = true ∧
     (calculate_health "x" nonPositiveAgeInput).display = "") :=
  ⟨by simp [invalidForm, nonPositiveAgeInput],
   handler_error_path "x" nonPositiveAgeInput
     (by simp [invalidForm, nonPositiveAgeInput])⟩

set_option maxRecDepth 16000

/-- Claim C8: the end-to-end submission `age=25, height_cm=170,
weight_kg=70, sleep_hours=8, Moderate, No` computes BMI `24.22`, category
`Normal weight`, raises no alert or exception, and its report carries all
five labelled sections. -/
theorem end_to_end_demo :
    qdiv 170 100 = 170 / 100 ∧
    calculate_bmi 70 (qdiv 170 100) = 24.22 ∧
    (get_bmi_category (calculate_bmi 70 (qdiv 170 100))).1 = "Normal weight" ∧
    (calculate_health "" demoInput).alert = false ∧
    (∀ l ∈ sectionLabels,
       strContains (calculate_health "" demoInput).display l = true) ∧
    calculate_bmiE 70 (qdiv 170 100) =
      Except.ok (calculate_bmi 70 (qdiv 170 100)) ∧
    get_sleep_feedbackE 25 8 = Except.ok (get_sleep_feedback 25 8) := by
  refine ⟨qdiv_eq 170 100, ?_, by decide, by decide, by decide, rfl, rfl⟩
  have h : (24.22 : ℚ) = mkRat 1211 50 := by
    rw [Rat.mkRat_eq_divInt, Rat.divInt_eq_div]
    norm_num
  rw [h]
  decide

/-- Claim C10: every recommendation list starts with the two fixed tips;
it has exactly 3 entries for the four named categories and exactly 2 for
any other string. -/
theorem recommendations_shape (category : String) :
    (generate_health_recommendations category).take 2 = baseRecommendations ∧
    ((category = "Underweight" ∨ category = "Normal weight" ∨
      category = "Overweight" ∨ category = "Obesity") →
      (generate_health_recommendations category).length = 3) ∧
    (¬(category = "Underweight" ∨ category = "Normal weight" ∨
       category = "Overweight" ∨ category = "Obesity") →
      (generate_health_recommendations category).length = 2) := by
  unfold generate_health_recommendations baseRecommendations
  split_ifs with h1 h2 h3 h4 <;> simp_all

/-- Witness for C10 at `category = "Obesity"` and at a non-category
string. -/
theorem recommendations_shape_witness :
    (generate_health_recommendations "Obesity").length = 3 ∧
    (generate_health_recommendations "Unknown").length = 2 :=
  ⟨(recommendations_shape "Obesity").2.1 (by simp),
   (recommendations_shape "Unknown").2.2 (by simp)⟩

end HealthCalc
